import Mathlib

/-!
Verification development for the flow-seo credential vault and OAuth
session manager.  The definitions below are a shallow embedding of the
TypeScript sources: the SQLite credential store (`lib/db/database.ts`,
surviving as `src/unnamed/part_019`), the Neon PostgreSQL store
(`app/lib/utils/neon-database.ts`), the AES-256-GCM encryption utility
(`app/lib/utils/encryption.ts`), the OAuth route handlers
(`app/api/auth/route.ts` and the callback route in `src/unnamed/part_008`),
and the session-token verifier (`app/lib/utils/auth.ts`).
Strings, rows and byte buffers are modelled with Lean strings, structures
and `List Nat` (bytes, each `< 256`); external library primitives
(Node `crypto`, `jose`) are modelled abstractly, with their documented
laws as structure fields.
-/

namespace FlowSeo

/-- A row of the `apiKeys` / `api_keys` table:
`(userId, siteId, provider, encryptedKey, createdAt)` with a uniqueness
constraint on `(userId, siteId, provider)`. -/
structure ApiKeyRow where
  userId : String
  siteId : String
  provider : String
  encryptedKey : String
  createdAt : Nat
  deriving Repr, DecidableEq

/-- A row of the `selectedProviders` / `selected_providers` table:
unique on `(userId, siteId)`. -/
structure SelRow where
  userId : String
  siteId : String
  provider : String
  deriving Repr, DecidableEq

/-- Does an api-key row match the `(userId, siteId, provider)` key triple? -/
def apiKeyMatch (u s p : String) (r : ApiKeyRow) : Bool :=
  r.userId == u && r.siteId == s && r.provider == p

/-- Does a selected-provider row match the `(userId, siteId)` key pair? -/
def selMatch (u s : String) (r : SelRow) : Bool :=
  r.userId == u && r.siteId == s

/-- Does a selected-provider row match on all of `(userId, siteId, provider)`? -/
def selMatchP (u s p : String) (r : SelRow) : Bool :=
  r.userId == u && r.siteId == s && r.provider == p

/-- The mutable row contents of the SQLite store that the api-key
operations of `database.ts` touch. -/
structure SqliteDb where
  apiKeys : List ApiKeyRow
  selectedProviders : List SelRow
  deriving Repr, DecidableEq

/-- The empty SQLite store (both tables present and empty). -/
def SqliteDb.empty : SqliteDb := { apiKeys := [], selectedProviders := [] }

/-- First statement of `database.ts`'s `saveApiKey`:
`REPLACE INTO apiKeys (userId, siteId, provider, encryptedKey, createdAt)`.
`REPLACE` deletes any row conflicting on the unique key and inserts the
new row. -/
def sqliteSaveApiKeyStep1 (db : SqliteDb) (u s p k : String) (t : Nat) : SqliteDb :=
  { db with apiKeys :=
      ⟨u, s, p, k, t⟩ :: db.apiKeys.filter (fun r => !(apiKeyMatch u s p r)) }

/-- Second statement of `database.ts`'s `saveApiKey`:
`REPLACE INTO selectedProviders (userId, siteId, provider)`. -/
def sqliteSaveApiKeyStep2 (db : SqliteDb) (u s p : String) : SqliteDb :=
  { db with selectedProviders :=
      ⟨u, s, p⟩ :: db.selectedProviders.filter (fun r => !(selMatch u s r)) }

/-- `database.ts` `saveApiKey`: the two `db.run` statements in sequence
(no transaction around them). -/
def sqliteSaveApiKey (db : SqliteDb) (u s p k : String) (t : Nat) : SqliteDb :=
  sqliteSaveApiKeyStep2 (sqliteSaveApiKeyStep1 db u s p k t) u s p

/-- First statement of `database.ts`'s `deleteApiKey`:
`DELETE FROM apiKeys WHERE userId = ? AND siteId = ? AND provider = ?`. -/
def sqliteDeleteApiKeyStep1 (db : SqliteDb) (u s p : String) : SqliteDb :=
  { db with apiKeys := db.apiKeys.filter (fun r => !(apiKeyMatch u s p r)) }

/-- Second statement of `database.ts`'s `deleteApiKey`:
`DELETE FROM selectedProviders WHERE userId = ? AND siteId = ? AND provider = ?`. -/
def sqliteDeleteApiKeyStep2 (db : SqliteDb) (u s p : String) : SqliteDb :=
  { db with selectedProviders :=
      db.selectedProviders.filter (fun r => !(selMatchP u s p r)) }

/-- `database.ts` `deleteApiKey`: both deletes in sequence (no transaction). -/
def sqliteDeleteApiKey (db : SqliteDb) (u s p : String) : SqliteDb :=
  sqliteDeleteApiKeyStep2 (sqliteDeleteApiKeyStep1 db u s p) u s p

/-- `database.ts` `getApiKey`: a `SELECT` on the triple followed by
`row?.encryptedKey || null`.  JavaScript `||` sends the empty string to
`null` as well. -/
def sqliteGetApiKey (db : SqliteDb) (u s p : String) : Option String :=
  match db.apiKeys.find? (apiKeyMatch u s p) with
  | some r => if r.encryptedKey == "" then none else some r.encryptedKey
  | none => none

/-- `database.ts` `getSelectedProvider`: `SELECT provider FROM
selectedProviders WHERE userId = ? AND siteId = ?` followed by
`row?.provider || null`. -/
def sqliteGetSelectedProvider (db : SqliteDb) (u s : String) : Option String :=
  match db.selectedProviders.find? (selMatch u s) with
  | some r => if r.provider == "" then none else some r.provider
  | none => none

/-- The row contents of the Neon PostgreSQL store touched by the api-key
operations of `neon-database.ts`. -/
structure NeonDb where
  api_keys : List ApiKeyRow
  selected_providers : List SelRow
  deriving Repr, DecidableEq

/-- The empty Neon store. -/
def NeonDb.empty : NeonDb := { api_keys := [], selected_providers := [] }

/-- `neon-database.ts` `saveApiKey`: a single `INSERT ... ON CONFLICT
(user_id, site_id, provider) DO UPDATE SET encrypted_key = ...` on
`api_keys`.  On conflict only `encrypted_key` changes (the stored
`created_at` is kept); on a fresh insert `created_at` defaults to the
current timestamp.  No statement touches `selected_providers`. -/
def neonSaveApiKey (db : NeonDb) (u s p k : String) (now : Nat) : NeonDb :=
  match db.api_keys.find? (apiKeyMatch u s p) with
  | some _ =>
      { db with api_keys :=
          db.api_keys.map (fun q => if apiKeyMatch u s p q then { q with encryptedKey := k } else q) }
  | none => { db with api_keys := ⟨u, s, p, k, now⟩ :: db.api_keys }

/-- `neon-database.ts` `deleteApiKey`: a single `DELETE FROM api_keys`
on the key triple.  `selected_providers` is not touched. -/
def neonDeleteApiKey (db : NeonDb) (u s p : String) : NeonDb :=
  { db with api_keys := db.api_keys.filter (fun r => !(apiKeyMatch u s p r)) }

/-- `neon-database.ts` `getApiKey`:
`result.length > 0 ? result[0].encrypted_key : null`. -/
def neonGetApiKey (db : NeonDb) (u s p : String) : Option String :=
  (db.api_keys.find? (apiKeyMatch u s p)).map (fun r => r.encryptedKey)

/-- `neon-database.ts` `getSelectedProvider`:
`result.length > 0 ? result[0].provider : null`. -/
def neonGetSelectedProvider (db : NeonDb) (u s : String) : Option String :=
  (db.selected_providers.find? (selMatch u s)).map (fun r => r.provider)

/-! ### Schema initialization

A persistent database file is modelled table by table; `none` means the
table does not exist yet, `some rows` that it exists and holds `rows`. -/

/-- The four tables of the SQLite database file used by `getDb`. -/
structure SqliteFile where
  siteAuthorizations : Option (List (String × String))
  userAuthorizations : Option (List (Nat × String × String))
  apiKeys : Option (List ApiKeyRow)
  selectedProviders : Option (List SelRow)
  deriving Repr, DecidableEq

/-- The table-creation block run by `getDb` in `database.ts` on a fresh
process start: `CREATE TABLE IF NOT EXISTS siteAuthorizations`,
`CREATE TABLE IF NOT EXISTS userAuthorizations`, but
`DROP TABLE IF EXISTS apiKeys; CREATE TABLE apiKeys` and
`DROP TABLE IF EXISTS selectedProviders; CREATE TABLE selectedProviders`.
A dropped-and-recreated table is empty whatever it held before. -/
def sqliteGetDbInit (f : SqliteFile) : SqliteFile :=
  { siteAuthorizations := some (f.siteAuthorizations.getD [])
    userAuthorizations := some (f.userAuthorizations.getD [])
    apiKeys := some []
    selectedProviders := some [] }

/-- The four tables of the Neon PostgreSQL database. -/
structure NeonFile where
  site_authorizations : Option (List (String × String))
  user_authorizations : Option (List (Nat × String × String))
  api_keys : Option (List ApiKeyRow)
  selected_providers : Option (List SelRow)
  deriving Repr, DecidableEq

/-- `neon-database.ts` `initializeDatabase`: a single `DO $$` block of
four `CREATE TABLE IF NOT EXISTS` statements; an existing table, and the
rows it holds, are untouched. -/
def neonInitializeDatabase (f : NeonFile) : NeonFile :=
  { site_authorizations := some (f.site_authorizations.getD [])
    user_authorizations := some (f.user_authorizations.getD [])
    api_keys := some (f.api_keys.getD [])
    selected_providers := some (f.selected_providers.getD []) }

/-! ### OAuth route handlers

Each handler is embedded as the pure decision it takes up to its first
external effect (redirect emitted or token-exchange request issued). -/

/-- JavaScript truthiness of a nullable string query parameter:
`null` and the empty string are falsy. -/
def optTruthy : Option String → Bool
  | none => false
  | some s => s != ""

/-- The `state` value hard-coded by `getAuthUrl` in
`app/lib/utils/auth.ts` (`const state = "webflow_designer"`). -/
def issuedState : String := "webflow_designer"

/-- The OAuth scope list of `app/lib/utils/auth.ts` (`scopes.join(" ")`). -/
def scopeString : String := "sites:read sites:write"

/-- `getAuthUrl` of `app/lib/utils/auth.ts`: the authorization endpoint
URL with `client_id`, `response_type=code`, the scope list, the issued
`state` and the redirect URI. -/
def getAuthUrl (clientId redirectUriEncoded : String) : String :=
  "https://webflow.com/oauth/authorize?client_id=" ++ clientId ++
    "&response_type=code&scope=" ++ scopeString ++ "&state=" ++ issuedState ++
    "&redirect_uri=" ++ redirectUriEncoded

/-- The query parameters of a request to `GET /api/auth` that the
handler reads. -/
structure AuthRequest where
  code : Option String
  state : Option String
  error : Option String
  error_description : Option String
  deriving Repr, DecidableEq

/-- The first externally visible step taken by an OAuth route handler. -/
inductive AuthAction where
  /-- A redirect to the error page. -/
  | redirectError (url : String)
  /-- A redirect to the identity provider's consent screen. -/
  | redirectInstall (url : String)
  /-- The handler proceeds into the token exchange with this code. -/
  | exchangeCode (code : String)
  deriving Repr, DecidableEq

/-- The `GET /api/auth` handler of `app/api/auth/route.ts` up to its
first external effect.  It reads `code`, `error` and `error_description`
from the query string; it reads no `state` parameter at all, and when a
truthy `code` is present it goes straight into
`auth.exchangeCodeForToken(code)`. -/
def authRouteGet (clientId redirectUriEncoded : String) (req : AuthRequest) : AuthAction :=
  if optTruthy req.error then
    .redirectError ("/error?message=" ++ req.error_description.getD "null")
  else if !(optTruthy req.code) then
    .redirectInstall (getAuthUrl clientId redirectUriEncoded)
  else
    .exchangeCode (req.code.getD "")

/-- The first externally visible step of the `GET /api/auth/callback`
handler (`src/unnamed/part_008`). -/
inductive CallbackAction where
  /-- `400 {"error": "No authorization code provided"}`. -/
  | badRequestNoCode
  /-- `400 {"error": "Invalid state parameter"}`. -/
  | badRequestInvalidState
  /-- The handler enters the `try` block and performs the token exchange. -/
  | proceed (code : String)
  deriving Repr, DecidableEq

/-- The `GET /api/auth/callback` handler of `src/unnamed/part_008` up to
its first external effect: reject when `code` is falsy; then reject when
`state` is falsy or differs from `process.env.OAUTH_STATE`
(`if (!state || state !== expectedState)`); only then exchange the code. -/
def callbackGet (oauthStateEnv : Option String) (code state : Option String) :
    CallbackAction :=
  if !(optTruthy code) then .badRequestNoCode
  else if !(optTruthy state) || state != oauthStateEnv then .badRequestInvalidState
  else .proceed (code.getD "")

/-! ### The successful-callback response of `GET /api/auth` -/

/-- Uppercase hexadecimal digit of a value below 16. -/
def hexDigit (n : Nat) : Char :=
  if n < 10 then Char.ofNat (48 + n) else Char.ofNat (55 + n)

/-- UTF-8 encoding of one character, as bytes. -/
def utf8CharBytes (c : Char) : List Nat :=
  if c.toNat < 0x80 then [c.toNat]
  else if c.toNat < 0x800 then [0xC0 + c.toNat / 0x40, 0x80 + c.toNat % 0x40]
  else if c.toNat < 0x10000 then
    [0xE0 + c.toNat / 0x1000, 0x80 + (c.toNat / 0x40) % 0x40,
      0x80 + c.toNat % 0x40]
  else
    [0xF0 + c.toNat / 0x40000, 0x80 + (c.toNat / 0x1000) % 0x40,
      0x80 + (c.toNat / 0x40) % 0x40, 0x80 + c.toNat % 0x40]

/-- A byte rendered as a percent-escape, e.g. `%2F`. -/
def percentByte (b : Nat) : List Char :=
  ['%', hexDigit (b / 16), hexDigit (b % 16)]

/-- The characters `encodeURIComponent` leaves unescaped:
letters, digits and `- _ . ! ~ * ' ( )`. -/
def uriUnreserved (c : Char) : Bool :=
  (65 ≤ c.toNat && c.toNat ≤ 90) || (97 ≤ c.toNat && c.toNat ≤ 122) ||
    (48 ≤ c.toNat && c.toNat ≤ 57) ||
    c == '-' || c == '_' || c == '.' || c == '!' || c == '~' || c == '*' ||
    c == '\'' || c == '(' || c == ')'

/-- The JavaScript `encodeURIComponent` builtin: unreserved characters
pass through, every other character is replaced by the percent-escapes
of its UTF-8 bytes. -/
def encodeURIComponent (s : String) : String :=
  ⟨(s.data.map (fun c =>
      if uriUnreserved c then [c] else ((utf8CharBytes c).map percentByte).flatten)).flatten⟩

/-- The response the `GET /api/auth` handler constructs on the success
path of its `try` block. -/
structure AuthSuccessResponse where
  location : String
  headers : List (String × String)
  deriving Repr, DecidableEq

/-- The CORS headers of `app/api/auth/route.ts`. -/
def authCorsHeaders (allowedOrigin : String) : List (String × String) :=
  [("Access-Control-Allow-Origin", allowedOrigin),
    ("Access-Control-Allow-Methods", "GET, POST, OPTIONS"),
    ("Access-Control-Allow-Headers", "Content-Type, Authorization"),
    ("Access-Control-Allow-Credentials", "true")]

/-- The success response of `GET /api/auth`: a redirect to
`ALLOWED_ORIGIN + "/?authorized=true&token=" + encodeURIComponent(accessToken)`
with an `Authorization: Bearer <accessToken>` header and the CORS
headers set on it. -/
def buildAuthSuccessResponse (allowedOrigin accessToken : String) :
    AuthSuccessResponse :=
  { location := allowedOrigin ++ "/?authorized=true&token=" ++
      encodeURIComponent accessToken
    headers := ("Authorization", "Bearer " ++ accessToken) ::
      authCorsHeaders allowedOrigin }

/-! ### Session-token verification (`verifyAccessToken`, `auth.ts`) -/

/-- The `user` claim object of a session token. -/
structure TokenUser where
  id : String
  email : String
  firstName : String
  lastName : String
  deriving Repr, DecidableEq

/-- The decoded claim set of a session token: user claims and an `exp`
expiry in seconds since the epoch. -/
structure DecodedToken where
  user : TokenUser
  exp : Nat
  deriving Repr, DecidableEq

/-- What `verifyAccessToken` returns for a valid token. -/
structure VerifiedUser where
  id : String
  email : String
  firstName : String
  lastName : String
  workspaces : List String
  deriving Repr, DecidableEq

/-- The JavaScript `String.prototype.startsWith` builtin, at character
level. -/
def strStartsWith (s pre : String) : Bool :=
  s.data.take pre.data.length == pre.data

/-- The JavaScript `String.prototype.split` builtin for a single-character
separator, at character level. -/
def jsSplitChar (sep : Char) : List Char → List (List Char)
  | [] => [[]]
  | c :: rest =>
    let r := jsSplitChar sep rest
    if c == sep then [] :: r
    else (c :: r.headD []) :: r.tail

/-- `verifyAccessToken` of `app/lib/utils/auth.ts`.  The `jose`
`jwtVerify` call is external; it is passed in as a function returning
either the decoded claims or an error (invalid signature or a
structurally malformed token), which the handler's `catch` turns into
`null`.  The handler then applies its own expiry check
`payload.exp * 1000 <= Date.now()`.  The function is total: every
failure is returned as `none`, never thrown. -/
def verifyAccessToken (jwtVerifyFn : String → Except String DecodedToken)
    (authHeader : Option String) (nowMs : Nat) : Option VerifiedUser :=
  match authHeader with
  | none => none
  | some h =>
    if !(strStartsWith h "Bearer ") then none
    else
      let token : String := ⟨(jsSplitChar ' ' h.data).getD 1 []⟩
      match jwtVerifyFn token with
      | .error _ => none
      | .ok payload =>
        if payload.exp * 1000 ≤ nowMs then none
        else some { id := payload.user.id, email := payload.user.email,
                    firstName := payload.user.firstName,
                    lastName := payload.user.lastName,
                    workspaces := ["default"] }

/-! ### Base64 (Node `Buffer` semantics)

`Buffer.concat(...).toString('base64')` and `Buffer.from(s, 'base64')`.
The decoder is forgiving: characters outside the alphabet (including the
`=` padding) end the decode, and trailing bits of an incomplete final
quantum are dropped. -/

/-- The base64 alphabet. -/
def b64Alphabet : List Char :=
  "ABCDEFGHIJKLMNOPQRSTUVWXYZabcdefghijklmnopqrstuvwxyz0123456789+/".data

/-- The base64 character of a 6-bit value. -/
def b64Char (n : Nat) : Char := b64Alphabet.getD n '='

/-- The 6-bit value of a base64 character, or `none` for a character
outside the alphabet. -/
def b64Val (c : Char) : Option Nat :=
  if 65 ≤ c.toNat && c.toNat ≤ 90 then some (c.toNat - 65)
  else if 97 ≤ c.toNat && c.toNat ≤ 122 then some (c.toNat - 71)
  else if 48 ≤ c.toNat && c.toNat ≤ 57 then some (c.toNat + 4)
  else if c == '+' then some 62
  else if c == '/' then some 63
  else none

/-- Base64 encoding of a byte list, three bytes to four characters,
padded with `=`. -/
def base64EncodeChars : List Nat → List Char
  | b0 :: b1 :: b2 :: rest =>
    b64Char (b0 / 4) :: b64Char (b0 % 4 * 16 + b1 / 16) ::
      b64Char (b1 % 16 * 4 + b2 / 64) :: b64Char (b2 % 64) ::
      base64EncodeChars rest
  | [b0, b1] => [b64Char (b0 / 4), b64Char (b0 % 4 * 16 + b1 / 16),
      b64Char (b1 % 16 * 4), '=']
  | [b0] => [b64Char (b0 / 4), b64Char (b0 % 4 * 16), '=', '=']
  | [] => []

/-- `Buffer.toString('base64')`. -/
def base64Encode (bs : List Nat) : String := ⟨base64EncodeChars bs⟩

/-- Reassembling bytes from a list of 6-bit values; the trailing bits of
an incomplete final quantum are dropped, as Node's decoder does. -/
def base64DecodeVals : List Nat → List Nat
  | v0 :: v1 :: v2 :: v3 :: rest =>
    (v0 * 4 + v1 / 16) :: (v1 % 16 * 16 + v2 / 4) :: (v2 % 4 * 64 + v3) ::
      base64DecodeVals rest
  | [v0, v1, v2] => [v0 * 4 + v1 / 16, v1 % 16 * 16 + v2 / 4]
  | [v0, v1] => [v0 * 4 + v1 / 16]
  | [_] => []
  | [] => []

/-- `Buffer.from(s, 'base64')`: read alphabet characters up to the first
non-alphabet character (such as the `=` padding) and reassemble bytes. -/
def base64Decode (s : String) : List Nat :=
  base64DecodeVals
    ((s.data.takeWhile (fun c => (b64Val c).isSome)).filterMap b64Val)

/-! ### UTF-8 (Node `Buffer` string conversions) -/

/-- `Buffer.from(text, 'utf8')`: the UTF-8 bytes of a string. -/
def utf8Bytes (s : String) : List Nat := (s.data.map utf8CharBytes).flatten

/-- Is a byte a UTF-8 continuation byte (`10xxxxxx`)? -/
def utf8IsCont (b : Nat) : Bool := 0x80 ≤ b && b < 0xC0

/-- One step of lossy UTF-8 decoding, as `buffer.toString('utf8')`
performs it: consume one well-formed sequence and return its character
together with the remaining bytes; on malformed input return the
replacement character `U+FFFD` and resume after the offending lead byte.
(The replacement behaviour on malformed input is approximate; on output
of `utf8CharBytes` the decode is exact.) -/
def utf8DecodeStep : List Nat → Char × List Nat
  | [] => ('\uFFFD', [])
  | b :: rest =>
    if b < 0x80 then (Char.ofNat b, rest)
    else if b < 0xC0 then ('\uFFFD', rest)
    else if b < 0xE0 then
      match rest with
      | b1 :: rest1 =>
        if utf8IsCont b1 then
          (Char.ofNat ((b - 0xC0) * 0x40 + (b1 - 0x80)), rest1)
        else ('\uFFFD', rest)
      | [] => ('\uFFFD', [])
    else if b < 0xF0 then
      match rest with
      | b1 :: b2 :: rest2 =>
        if utf8IsCont b1 && utf8IsCont b2 then
          (Char.ofNat ((b - 0xE0) * 0x1000 + (b1 - 0x80) * 0x40 + (b2 - 0x80)),
            rest2)
        else ('\uFFFD', rest)
      | _ => ('\uFFFD', [])
    else
      match rest with
      | b1 :: b2 :: b3 :: rest3 =>
        if utf8IsCont b1 && utf8IsCont b2 && utf8IsCont b3 then
          (Char.ofNat ((b - 0xF0) * 0x40000 + (b1 - 0x80) * 0x1000 +
              (b2 - 0x80) * 0x40 + (b3 - 0x80)), rest3)
        else ('\uFFFD', rest)
      | _ => ('\uFFFD', [])

/-- Fuel-driven iteration of `utf8DecodeStep`; with fuel at least the
length of the byte list, every byte is consumed. -/
def utf8DecodeGo : Nat → List Nat → List Char
  | _, [] => []
  | 0, _ :: _ => []
  | fuel + 1, b :: rest =>
    (utf8DecodeStep (b :: rest)).1 ::
      utf8DecodeGo fuel (utf8DecodeStep (b :: rest)).2

/-- Lossy UTF-8 decoding of a whole byte list. -/
def utf8DecodeChars (bs : List Nat) : List Char := utf8DecodeGo bs.length bs

/-- `buffer.toString('utf8')`. -/
def utf8Decode (bs : List Nat) : String := ⟨utf8DecodeChars bs⟩

/-! ### The encryption utility (`app/lib/utils/encryption.ts`)

`encrypt`/`decrypt` use AES-256-GCM through Node's `crypto` module with
a PBKDF2-derived key.  The external primitives are collected in an
`AeadCipher` structure: `kdf` models `crypto.pbkdf2Sync`, `ctr` the
keystream (counter-mode) encryption of AES-GCM — applying the keystream
twice gives the data back, which is how `createDecipheriv` inverts
`createCipheriv` — and `tagOf` the authentication tag (GHASH), a
function of key, IV and ciphertext that `cipher.getAuthTag()` returns
and `decipher.setAuthTag`/`final` checks. -/

structure AeadCipher where
  kdf : String → List Nat → List Nat
  ctr : List Nat → List Nat → List Nat → List Nat
  tagOf : List Nat → List Nat → List Nat → List Nat
  ctr_length : ∀ k iv m, (ctr k iv m).length = m.length
  ctr_involutive : ∀ k iv m, ctr k iv (ctr k iv m) = m
  ctr_bytes_lt : ∀ k iv m, (∀ b ∈ m, b < 256) → ∀ b ∈ ctr k iv m, b < 256
  tag_length : ∀ k iv c, (tagOf k iv c).length = 16
  tag_bytes_lt : ∀ k iv c, ∀ b ∈ tagOf k iv c, b < 256

/-- `deriveKey` of `encryption.ts`: reads `process.env.ENCRYPTION_KEY`
on every call and throws when it is not set; otherwise derives the key
with PBKDF2 from the master key and the salt. -/
def deriveKeyE (C : AeadCipher) (encryptionKeyEnv : Option String)
    (salt : List Nat) : Except String (List Nat) :=
  match encryptionKeyEnv with
  | none => .error "ENCRYPTION_KEY environment variable is not set"
  | some masterKey => .ok (C.kdf masterKey salt)

/-- `encrypt` of `encryption.ts`.  The fresh random salt (64 bytes) and
IV (16 bytes) drawn by `crypto.randomBytes` are inputs here; the result
is `Buffer.concat([salt, iv, authTag, encrypted]).toString('base64')`. -/
def encryptE (C : AeadCipher) (encryptionKeyEnv : Option String)
    (salt iv : List Nat) (text : String) : Except String String :=
  match deriveKeyE C encryptionKeyEnv salt with
  | .error e => .error e
  | .ok key =>
    let encrypted := C.ctr key iv (utf8Bytes text)
    let authTag := C.tagOf key iv encrypted
    .ok (base64Encode (salt ++ iv ++ authTag ++ encrypted))

/-- `decrypt` of `encryption.ts`: decode the base64 blob, slice
`salt := buffer[0..64)`, `iv := buffer[64..80)`,
`authTag := buffer[80..96)`, `encrypted := buffer[96..)`, re-derive the
key from the embedded salt, and run the authenticated decryption, which
fails (Node throws `Unsupported state or unable to authenticate data`)
exactly when the tag does not match. -/
def decryptE (C : AeadCipher) (encryptionKeyEnv : Option String)
    (encryptedData : String) : Except String String :=
  let buffer := base64Decode encryptedData
  let salt := buffer.take 64
  let iv := (buffer.drop 64).take 16
  let authTag := (buffer.drop 80).take 16
  let encrypted := buffer.drop 96
  match deriveKeyE C encryptionKeyEnv salt with
  | .error e => .error e
  | .ok key =>
    if C.tagOf key iv encrypted = authTag then
      .ok (utf8Decode (C.ctr key iv encrypted))
    else .error "Unsupported state or unable to authenticate data"

/-- A concrete `AeadCipher` instance used to evaluate the embedding on
closed inputs (identity keystream, constant tag; it satisfies the
structural laws shared by AES-256-GCM). -/
def idAead : AeadCipher where
  kdf _ _ := List.replicate 32 0
  ctr _ _ m := m
  tagOf _ _ _ := List.replicate 16 0
  ctr_length _ _ _ := rfl
  ctr_involutive _ _ _ := rfl
  ctr_bytes_lt _ _ _ h := h
  tag_length _ _ _ := by simp
  tag_bytes_lt _ _ _ := by
    intro b hb
    rw [List.eq_of_mem_replicate hb]
    omega

/-- A SQLite database file holding one row in each table, as left by a
previous process run. -/
def sqliteFileWithRows : SqliteFile :=
  { siteAuthorizations := some [("site1", "tok1")]
    userAuthorizations := some [(1, "user1", "tok2")]
    apiKeys := some [⟨"u1", "s1", "openai", "enc", 0⟩]
    selectedProviders := some [⟨"u1", "s1", "openai"⟩] }

/-- All-zero 64-byte salt, standing for one concrete draw of
`crypto.randomBytes(64)`. -/
def zeros64 : List Nat := List.replicate 64 0

/-- All-zero 16-byte IV, standing for one concrete draw of
`crypto.randomBytes(16)`. -/
def zeros16 : List Nat := List.replicate 16 0

/-- The blob `encrypt` produces for plaintext `"ab"` under the concrete
cipher instance with the all-zero salt and IV. -/
def c5Blob : String :=
  match encryptE idAead (some "k0") zeros64 zeros16 "ab" with
  | .ok s => s
  | .error _ => ""

/-- `c5Blob` with the single character at index 130 changed (from `I` to
`J`): a one-byte modification of the base64 text that only alters the
two trailing bits that base64 decoding ignores in the padded final
quantum. -/
def c5Tampered : String := ⟨c5Blob.data.set 130 'J'⟩

/-- The blob `encrypt` produces for `"sk-test-123"` under the concrete
cipher instance with the all-zero salt and IV. -/
def c8Blob : String :=
  match encryptE idAead (some "k0") zeros64 zeros16 "sk-test-123" with
  | .ok s => s
  | .error _ => ""

/-! ### Library lemmas about the byte-level codecs -/

theorem utf8DecodeStep_shrink (b : Nat) (rest : List Nat) :
    (utf8DecodeStep (b :: rest)).2.length ≤ rest.length := by
  rcases rest with _ | ⟨b1, _ | ⟨b2, _ | ⟨b3, r⟩⟩⟩ <;>
    (simp only [utf8DecodeStep]; split_ifs <;> simp <;> omega)

/-- The decode iteration does not depend on the fuel, as long as the
fuel covers the length of the byte list. -/
theorem utf8DecodeGo_congr (fuel1 fuel2 : Nat) (bs : List Nat)
    (h1 : bs.length ≤ fuel1) (h2 : bs.length ≤ fuel2) :
    utf8DecodeGo fuel1 bs = utf8DecodeGo fuel2 bs := by
  induction fuel1 generalizing fuel2 bs with
  | zero =>
    cases bs with
    | nil => cases fuel2 <;> rfl
    | cons b rest => simp at h1
  | succ f1 ih =>
    cases bs with
    | nil => cases fuel2 <;> rfl
    | cons b rest =>
      cases fuel2 with
      | zero => simp at h2
      | succ f2 =>
        simp only [utf8DecodeGo]
        have hb := utf8DecodeStep_shrink b rest
        simp only [List.length_cons] at h1 h2
        rw [ih f2 (utf8DecodeStep (b :: rest)).2 (by omega) (by omega)]

theorem utf8DecodeChars_cons (b : Nat) (bs : List Nat) :
    utf8DecodeChars (b :: bs) =
      (utf8DecodeStep (b :: bs)).1 ::
        utf8DecodeChars (utf8DecodeStep (b :: bs)).2 := by
  show utf8DecodeGo (b :: bs).length (b :: bs) = _
  simp only [List.length_cons, utf8DecodeGo]
  rw [utf8DecodeGo_congr bs.length (utf8DecodeStep (b :: bs)).2.length _
    (utf8DecodeStep_shrink b bs) (Nat.le_refl _)]
  rfl

theorem b64Val_b64Char : ∀ v < 64, b64Val (b64Char v) = some v := by decide

theorem b64Val_pad : b64Val '=' = none := by decide

theorem base64DecodeVals_cons4 (v0 v1 v2 v3 : Nat) (vs : List Nat) :
    base64DecodeVals (v0 :: v1 :: v2 :: v3 :: vs) =
      (v0 * 4 + v1 / 16) :: (v1 % 16 * 16 + v2 / 4) :: (v2 % 4 * 64 + v3) ::
        base64DecodeVals vs := rfl

/-- Decoding is a left inverse of encoding on byte lists. -/
theorem base64_decode_encode (bs : List Nat) (h : ∀ b ∈ bs, b < 256) :
    base64Decode (base64Encode bs) = bs := by
  show base64DecodeVals
      (((base64EncodeChars bs).takeWhile (fun c => (b64Val c).isSome)).filterMap
        b64Val) = bs
  induction bs using base64EncodeChars.induct with
  | case1 b0 b1 b2 rest ih =>
    have h0 : b0 < 256 := h b0 (by simp)
    have h1 : b1 < 256 := h b1 (by simp)
    have h2 : b2 < 256 := h b2 (by simp)
    have hrest : ∀ b ∈ rest, b < 256 := fun b hb => h b (by simp [hb])
    rw [base64EncodeChars]
    rw [List.takeWhile_cons, b64Val_b64Char _ (by omega)]
    rw [List.takeWhile_cons, b64Val_b64Char _ (by omega)]
    rw [List.takeWhile_cons, b64Val_b64Char _ (by omega)]
    rw [List.takeWhile_cons, b64Val_b64Char _ (by omega)]
    simp only [Option.isSome_some, if_true]
    rw [List.filterMap_cons, b64Val_b64Char _ (by omega)]
    rw [List.filterMap_cons, b64Val_b64Char _ (by omega)]
    rw [List.filterMap_cons, b64Val_b64Char _ (by omega)]
    rw [List.filterMap_cons, b64Val_b64Char _ (by omega)]
    rw [base64DecodeVals_cons4, ih hrest]
    congr 1 <;> [skip; congr 1] <;> [omega; omega; congr 1] <;> omega
  | case2 b0 b1 =>
    have h0 : b0 < 256 := h b0 (by simp)
    have h1 : b1 < 256 := h b1 (by simp)
    rw [base64EncodeChars]
    rw [List.takeWhile_cons, b64Val_b64Char _ (by omega)]
    rw [List.takeWhile_cons, b64Val_b64Char _ (by omega)]
    rw [List.takeWhile_cons, b64Val_b64Char _ (by omega)]
    rw [List.takeWhile_cons, b64Val_pad]
    simp only [Option.isSome_some, Option.isSome_none, if_true, if_false,
      Bool.false_eq_true]
    rw [List.filterMap_cons, b64Val_b64Char _ (by omega)]
    rw [List.filterMap_cons, b64Val_b64Char _ (by omega)]
    rw [List.filterMap_cons, b64Val_b64Char _ (by omega)]
    rw [List.filterMap_nil]
    show [_, _] = [b0, b1]
    congr 1 <;> [omega; congr 1] <;> omega
  | case3 b0 =>
    have h0 : b0 < 256 := h b0 (by simp)
    rw [base64EncodeChars]
    rw [List.takeWhile_cons, b64Val_b64Char _ (by omega)]
    rw [List.takeWhile_cons, b64Val_b64Char _ (by omega)]
    rw [List.takeWhile_cons, b64Val_pad]
    simp only [Option.isSome_some, Option.isSome_none, if_true, if_false,
      Bool.false_eq_true]
    rw [List.filterMap_cons, b64Val_b64Char _ (by omega)]
    rw [List.filterMap_cons, b64Val_b64Char _ (by omega)]
    rw [List.filterMap_nil]
    show [_] = [b0]
    congr 1
    omega
  | case4 => rfl

/-- Base64 encoding is injective on byte lists. -/
theorem base64Encode_injective (bs1 bs2 : List Nat)
    (h1 : ∀ b ∈ bs1, b < 256) (h2 : ∀ b ∈ bs2, b < 256)
    (h : base64Encode bs1 = base64Encode bs2) : bs1 = bs2 := by
  rw [← base64_decode_encode bs1 h1, ← base64_decode_encode bs2 h2, h]

/-- The encoded length: four characters for every started block of three
bytes. -/
theorem base64Encode_length (bs : List Nat) :
    (base64Encode bs).length = 4 * ((bs.length + 2) / 3) := by
  show (base64EncodeChars bs).length = _
  induction bs using base64EncodeChars.induct with
  | case1 b0 b1 b2 rest ih =>
    rw [base64EncodeChars]
    simp only [List.length_cons, ih, List.length_cons]
    omega
  | case2 b0 b1 => simp [base64EncodeChars]
  | case3 b0 => simp [base64EncodeChars]
  | case4 => rfl

theorem char_toNat_lt (c : Char) : c.toNat < 0x110000 := by
  rcases c.valid with h | ⟨h1, h2⟩
  · exact Nat.lt_trans h (by norm_num)
  · exact h2

theorem utf8CharBytes_lt (c : Char) : ∀ b ∈ utf8CharBytes c, b < 256 := by
  have hv : c.toNat < 0x110000 := char_toNat_lt c
  intro b hb
  unfold utf8CharBytes at hb
  split_ifs at hb <;> simp at hb <;> omega

theorem utf8Bytes_lt (s : String) : ∀ b ∈ utf8Bytes s, b < 256 := by
  intro b hb
  unfold utf8Bytes at hb
  rw [List.mem_flatten] at hb
  obtain ⟨l, hl, hbl⟩ := hb
  rw [List.mem_map] at hl
  obtain ⟨c, _, rfl⟩ := hl
  exact utf8CharBytes_lt c b hbl

theorem utf8DecodeChars_cons1 (b : Nat) (bs : List Nat) (h : b < 0x80) :
    utf8DecodeChars (b :: bs) = Char.ofNat b :: utf8DecodeChars bs := by
  rw [utf8DecodeChars_cons]
  simp [utf8DecodeStep, h]

theorem utf8DecodeChars_cons2 (b b1 : Nat) (bs : List Nat)
    (h : 0xC0 ≤ b) (h2 : b < 0xE0) (hc : utf8IsCont b1 = true) :
    utf8DecodeChars (b :: b1 :: bs) =
      Char.ofNat ((b - 0xC0) * 0x40 + (b1 - 0x80)) :: utf8DecodeChars bs := by
  rw [utf8DecodeChars_cons]
  simp [utf8DecodeStep, show ¬b < 0x80 by omega, show ¬b < 0xC0 by omega, h2, hc]

theorem utf8DecodeChars_cons3 (b b1 b2 : Nat) (bs : List Nat)
    (h : 0xE0 ≤ b) (h2 : b < 0xF0) (hc1 : utf8IsCont b1 = true)
    (hc2 : utf8IsCont b2 = true) :
    utf8DecodeChars (b :: b1 :: b2 :: bs) =
      Char.ofNat ((b - 0xE0) * 0x1000 + (b1 - 0x80) * 0x40 + (b2 - 0x80)) ::
        utf8DecodeChars bs := by
  rw [utf8DecodeChars_cons]
  simp [utf8DecodeStep, show ¬b < 0x80 by omega, show ¬b < 0xC0 by omega,
    show ¬b < 0xE0 by omega, h2, hc1, hc2]

theorem utf8DecodeChars_cons4 (b b1 b2 b3 : Nat) (bs : List Nat)
    (h : 0xF0 ≤ b) (hc1 : utf8IsCont b1 = true) (hc2 : utf8IsCont b2 = true)
    (hc3 : utf8IsCont b3 = true) :
    utf8DecodeChars (b :: b1 :: b2 :: b3 :: bs) =
      Char.ofNat ((b - 0xF0) * 0x40000 + (b1 - 0x80) * 0x1000 +
          (b2 - 0x80) * 0x40 + (b3 - 0x80)) :: utf8DecodeChars bs := by
  rw [utf8DecodeChars_cons]
  simp [utf8DecodeStep, show ¬b < 0x80 by omega, show ¬b < 0xC0 by omega,
    show ¬b < 0xE0 by omega, show ¬b < 0xF0 by omega, hc1, hc2, hc3]

/-- Decoding is a left inverse of the UTF-8 encoding, one character at a
time. -/
theorem utf8DecodeChars_append (c : Char) (bs : List Nat) :
    utf8DecodeChars (utf8CharBytes c ++ bs) = c :: utf8DecodeChars bs := by
  have hv : c.toNat < 0x110000 := char_toNat_lt c
  unfold utf8CharBytes
  by_cases h1 : c.toNat < 0x80
  · rw [if_pos h1]
    simpa using utf8DecodeChars_cons1 c.toNat bs h1
  by_cases h2 : c.toNat < 0x800
  · rw [if_neg h1, if_pos h2]
    simp only [List.cons_append, List.nil_append]
    rw [utf8DecodeChars_cons2 _ _ _ (by omega) (by omega)
      (by simp [utf8IsCont]; omega)]
    rw [show (0xC0 + c.toNat / 0x40 - 0xC0) * 0x40 + (0x80 + c.toNat % 0x40 - 0x80)
        = c.toNat by omega, Char.ofNat_toNat]
  by_cases h3 : c.toNat < 0x10000
  · rw [if_neg h1, if_neg h2, if_pos h3]
    simp only [List.cons_append, List.nil_append]
    rw [utf8DecodeChars_cons3 _ _ _ _ (by omega) (by omega)
      (by simp [utf8IsCont]; omega) (by simp [utf8IsCont]; omega)]
    rw [show (0xE0 + c.toNat / 0x1000 - 0xE0) * 0x1000 +
        (0x80 + c.toNat / 0x40 % 0x40 - 0x80) * 0x40 +
        (0x80 + c.toNat % 0x40 - 0x80) = c.toNat by omega, Char.ofNat_toNat]
  · rw [if_neg h1, if_neg h2, if_neg h3]
    simp only [List.cons_append, List.nil_append]
    rw [utf8DecodeChars_cons4 _ _ _ _ _ (by omega)
      (by simp [utf8IsCont]; omega) (by simp [utf8IsCont]; omega)
      (by simp [utf8IsCont]; omega)]
    rw [show (0xF0 + c.toNat / 0x40000 - 0xF0) * 0x40000 +
        (0x80 + c.toNat / 0x1000 % 0x40 - 0x80) * 0x1000 +
        (0x80 + c.toNat / 0x40 % 0x40 - 0x80) * 0x40 +
        (0x80 + c.toNat % 0x40 - 0x80) = c.toNat by omega, Char.ofNat_toNat]

/-- Decoding is a left inverse of the UTF-8 encoding of a string. -/
theorem utf8Decode_utf8Bytes (s : String) : utf8Decode (utf8Bytes s) = s := by
  cases s with
  | mk data =>
    show (⟨utf8DecodeChars ((data.map utf8CharBytes).flatten)⟩ : String) = _
    congr 1
    induction data with
    | nil => rfl
    | cons c cs ih =>
      rw [List.map_cons, List.flatten_cons, utf8DecodeChars_append, ih]

/-- Mapping unreserved characters through the `encodeURIComponent` body
is the identity. -/
theorem uriEncodeChars_unreserved (l : List Char)
    (h : ∀ c ∈ l, uriUnreserved c = true) :
    (l.map (fun c => if uriUnreserved c then [c]
        else ((utf8CharBytes c).map percentByte).flatten)).flatten = l := by
  induction l with
  | nil => rfl
  | cons c cs ih =>
    rw [List.map_cons, List.flatten_cons, if_pos (h c (by simp)),
      ih (fun x hx => h x (by simp [hx]))]
    rfl

/-- `encodeURIComponent` leaves a string of unreserved characters
unchanged. -/
theorem encodeURIComponent_unreserved (s : String)
    (h : ∀ c ∈ s.data, uriUnreserved c = true) : encodeURIComponent s = s := by
  cases s with
  | mk data => exact congrArg String.mk (uriEncodeChars_unreserved data h)

/-- Slicing the concatenated blob recovers its four components. -/
theorem blob_slices (salt iv tagv ct : List Nat) (hs : salt.length = 64)
    (hi : iv.length = 16) (ht : tagv.length = 16) :
    (salt ++ iv ++ tagv ++ ct).take 64 = salt ∧
    ((salt ++ iv ++ tagv ++ ct).drop 64).take 16 = iv ∧
    ((salt ++ iv ++ tagv ++ ct).drop 80).take 16 = tagv ∧
    (salt ++ iv ++ tagv ++ ct).drop 96 = ct := by
  have l80 : (salt ++ iv).length = 80 := by simp [hs, hi]
  have l96 : ((salt ++ iv) ++ tagv).length = 96 := by simp [hs, hi, ht]
  refine ⟨?_, ?_, ?_, ?_⟩
  · rw [List.append_assoc, List.append_assoc]
    exact List.take_left' hs
  · rw [List.append_assoc, List.append_assoc, List.drop_left' hs]
    exact List.take_left' hi
  · rw [List.append_assoc (salt ++ iv) tagv ct, List.drop_left' l80]
    exact List.take_left' ht
  · exact List.drop_left' l96

/-- All bytes of an encryption blob are below 256. -/
theorem blob_bytes_lt (C : AeadCipher) (key iv : List Nat) (text : String)
    (salt : List Nat) (hsb : ∀ b ∈ salt, b < 256) (hib : ∀ b ∈ iv, b < 256)
    (tagv : List Nat) (htb : ∀ b ∈ tagv, b < 256) :
    ∀ b ∈ salt ++ iv ++ tagv ++ C.ctr key iv (utf8Bytes text), b < 256 := by
  intro b hb
  simp only [List.mem_append] at hb
  rcases hb with ((h | h) | h) | h
  · exact hsb b h
  · exact hib b h
  · exact htb b h
  · exact C.ctr_bytes_lt key iv (utf8Bytes text) (utf8Bytes_lt text) b h

/-! ### The claims -/

/-- C1, counterexample: the `GET /api/auth` handler performs no state
check — presented with a `state` different from the issued
`webflow_designer`, it still proceeds straight to the token exchange
instead of rejecting the callback. -/
theorem claim_C1_counterexample :
    authRouteGet "client-id" "redirect-uri"
        { code := some "oauth-code", state := some "attacker-state",
          error := none, error_description := none } =
      AuthAction.exchangeCode "oauth-code" ∧
    some "attacker-state" ≠ some issuedState := by decide

/-- C1, amended: the `GET /api/auth/callback` handler rejects a missing
or mismatching `state` with `400 Invalid state parameter` before any
token exchange; the `GET /api/auth` handler, however, performs no state
check at all and proceeds to the token exchange for any truthy `code`,
whatever `state` the request presents. -/
theorem claim_C1_amended (oauthStateEnv code state : Option String)
    (clientId redirectUriEncoded : String) (req : AuthRequest)
    (hcode : optTruthy code = true)
    (hstate : optTruthy state = false ∨ state ≠ oauthStateEnv)
    (hqerr : req.error = none) (hqcode : optTruthy req.code = true) :
    callbackGet oauthStateEnv code state =
      CallbackAction.badRequestInvalidState ∧
    authRouteGet clientId redirectUriEncoded req =
      AuthAction.exchangeCode (req.code.getD "") := by
  constructor
  · rcases hstate with hs | hs
    · simp [callbackGet, hcode, hs]
    · simp [callbackGet, hcode, bne_iff_ne, hs]
  · simp [authRouteGet, hqerr, hqcode, show optTruthy none = false from rfl]

/-- C1, witness for the amended theorem at concrete inputs. -/
theorem claim_C1_witness :
    callbackGet (some "webflow_designer") (some "code123") (some "evil") =
      CallbackAction.badRequestInvalidState ∧
    authRouteGet "cid" "ruri"
        { code := some "code123", state := some "evil",
          error := none, error_description := none } =
      AuthAction.exchangeCode "code123" :=
  claim_C1_amended (some "webflow_designer") (some "code123") (some "evil")
    "cid" "ruri"
    { code := some "code123", state := some "evil",
      error := none, error_description := none }
    (by decide) (Or.inr (by decide)) rfl (by decide)

/-- C2, counterexample: in the Neon backend, `saveApiKey` writes only
`api_keys`; immediately afterwards `getSelectedProvider` still returns
`null`, not the saved provider. -/
theorem claim_C2_counterexample :
    neonGetSelectedProvider
        (neonSaveApiKey NeonDb.empty "u1" "s1" "openai" "enc-key" 0)
        "u1" "s1" = none ∧
    (none : Option String) ≠ some "openai" := by decide

/-- C2, amended: the save/delete–selection consistency holds in the
SQLite backend (for a nonempty provider string): after `saveApiKey`,
`getSelectedProvider` returns the provider, and after a subsequent
`deleteApiKey` it returns `null`.  In the Neon backend neither
`saveApiKey` nor `deleteApiKey` touches `selected_providers`, so
`getSelectedProvider` is unchanged by both. -/
theorem claim_C2_amended (db : SqliteDb) (ndb : NeonDb) (u s p k : String)
    (t now : Nat) (hp : p ≠ "") :
    sqliteGetSelectedProvider (sqliteSaveApiKey db u s p k t) u s = some p ∧
    sqliteGetSelectedProvider
        (sqliteDeleteApiKey (sqliteSaveApiKey db u s p k t) u s p) u s = none ∧
    neonGetSelectedProvider (neonSaveApiKey ndb u s p k now) u s =
      neonGetSelectedProvider ndb u s ∧
    neonGetSelectedProvider (neonDeleteApiKey ndb u s p) u s =
      neonGetSelectedProvider ndb u s := by
  have hself : selMatch u s ⟨u, s, p⟩ = true := by simp [selMatch]
  have hselfP : selMatchP u s p ⟨u, s, p⟩ = true := by simp [selMatchP]
  refine ⟨?_, ?_, ?_, rfl⟩
  · unfold sqliteGetSelectedProvider sqliteSaveApiKey sqliteSaveApiKeyStep2
    simp only [List.find?_cons_of_pos _ hself]
    simp [hp]
  · unfold sqliteGetSelectedProvider sqliteDeleteApiKey sqliteDeleteApiKeyStep2
      sqliteDeleteApiKeyStep1 sqliteSaveApiKey sqliteSaveApiKeyStep2
    simp only
    rw [List.filter_cons_of_neg (by simp [hselfP])]
    rw [List.find?_eq_none.mpr]
    intro x hx
    have hx2 := List.mem_of_mem_filter hx
    have hx3 := (List.mem_filter.mp hx2).2
    simp only [Bool.not_eq_true'] at hx3
    simp [hx3]
  · have hsel : (neonSaveApiKey ndb u s p k now).selected_providers =
        ndb.selected_providers := by
      unfold neonSaveApiKey
      cases ndb.api_keys.find? (apiKeyMatch u s p) <;> rfl
    unfold neonGetSelectedProvider
    rw [hsel]

/-- C2, witness for the amended theorem at concrete inputs. -/
theorem claim_C2_witness :
    sqliteGetSelectedProvider
        (sqliteSaveApiKey SqliteDb.empty "u1" "s1" "openai" "enc" 0)
        "u1" "s1" = some "openai" ∧
    sqliteGetSelectedProvider
        (sqliteDeleteApiKey
          (sqliteSaveApiKey SqliteDb.empty "u1" "s1" "openai" "enc" 0)
          "u1" "s1" "openai") "u1" "s1" = none ∧
    neonGetSelectedProvider
        (neonSaveApiKey NeonDb.empty "u1" "s1" "openai" "enc" 0) "u1" "s1" =
      neonGetSelectedProvider NeonDb.empty "u1" "s1" ∧
    neonGetSelectedProvider (neonDeleteApiKey NeonDb.empty "u1" "s1" "openai")
        "u1" "s1" =
      neonGetSelectedProvider NeonDb.empty "u1" "s1" :=
  claim_C2_amended SqliteDb.empty NeonDb.empty "u1" "s1" "openai" "enc" 0 0
    (by decide)

/-- C3: `saveApiKey` in the SQLite backend is two separate `db.run`
statements with no transaction.  The state after the first statement
alone is observable on interruption: the api-key row is saved while the
provider selection is still missing; only the second statement
establishes it. -/
theorem claim_C3_nonatomic :
    sqliteGetApiKey
        (sqliteSaveApiKeyStep1 SqliteDb.empty "u1" "s1" "openai" "enc" 7)
        "u1" "s1" "openai" = some "enc" ∧
    sqliteGetSelectedProvider
        (sqliteSaveApiKeyStep1 SqliteDb.empty "u1" "s1" "openai" "enc" 7)
        "u1" "s1" = none ∧
    sqliteGetSelectedProvider
        (sqliteSaveApiKey SqliteDb.empty "u1" "s1" "openai" "enc" 7)
        "u1" "s1" = some "openai" := by decide

/-- C7, counterexample: the SQLite `getDb` initialization drops and
recreates `apiKeys` (and `selectedProviders`), erasing their stored rows
on a fresh process start. -/
theorem claim_C7_counterexample :
    (sqliteGetDbInit sqliteFileWithRows).apiKeys = some [] ∧
    sqliteFileWithRows.apiKeys = some [⟨"u1", "s1", "openai", "enc", 0⟩] ∧
    (sqliteGetDbInit sqliteFileWithRows).apiKeys ≠
      sqliteFileWithRows.apiKeys := by decide

/-- C7, amended: the Neon `initializeDatabase` is idempotent and only
creates missing tables — on a database whose four tables exist it is the
identity, preserving every stored row.  The SQLite `getDb`
initialization preserves the site- and user-authorization tables but
always recreates `apiKeys` and `selectedProviders` empty. -/
theorem claim_C7_amended (a : List (String × String))
    (b : List (Nat × String × String)) (c : List ApiKeyRow) (d : List SelRow)
    (f : NeonFile) (g : SqliteFile) :
    neonInitializeDatabase ⟨some a, some b, some c, some d⟩ =
      ⟨some a, some b, some c, some d⟩ ∧
    neonInitializeDatabase (neonInitializeDatabase f) =
      neonInitializeDatabase f ∧
    (sqliteGetDbInit g).siteAuthorizations =
      some (g.siteAuthorizations.getD []) ∧
    (sqliteGetDbInit g).userAuthorizations =
      some (g.userAuthorizations.getD []) ∧
    (sqliteGetDbInit g).apiKeys = some [] ∧
    (sqliteGetDbInit g).selectedProviders = some [] :=
  ⟨rfl, rfl, rfl, rfl, rfl, rfl⟩

/-- `decrypt` applied to an encoded four-part blob: it re-derives the
key from the embedded salt and succeeds exactly when the embedded tag
matches the tag of the embedded ciphertext. -/
theorem decryptE_ok (C : AeadCipher) (mk : String) (salt iv tagv ct : List Nat)
    (hs : salt.length = 64) (hi : iv.length = 16) (htl : tagv.length = 16)
    (hbytes : ∀ b ∈ salt ++ iv ++ tagv ++ ct, b < 256) :
    decryptE C (some mk) (base64Encode (salt ++ iv ++ tagv ++ ct)) =
      if C.tagOf (C.kdf mk salt) iv ct = tagv
      then .ok (utf8Decode (C.ctr (C.kdf mk salt) iv ct))
      else .error "Unsupported state or unable to authenticate data" := by
  obtain ⟨hT, hI, hG, hCt⟩ := blob_slices salt iv tagv ct hs hi htl
  simp only [decryptE, deriveKeyE]
  rw [base64_decode_encode _ hbytes, hT, hI, hG, hCt]

/-- C4: under the same master secret, `decrypt` inverts `encrypt`; and
two `encrypt` calls whose fresh random draws (salt, IV) differ produce
different ciphertext blobs, since the salt and IV are embedded at fixed
offsets of the base64 blob.  Randomness is an explicit input of the
embedding, so freshness is the hypothesis that the two draws differ. -/
theorem claim_C4 (C : AeadCipher) (mk : String) (salt1 iv1 salt2 iv2 : List Nat)
    (text blob : String)
    (h1l : salt1.length = 64) (h1il : iv1.length = 16)
    (h1b : ∀ b ∈ salt1, b < 256) (h1ib : ∀ b ∈ iv1, b < 256)
    (h2l : salt2.length = 64) (h2il : iv2.length = 16)
    (h2b : ∀ b ∈ salt2, b < 256) (h2ib : ∀ b ∈ iv2, b < 256)
    (hne : (salt1, iv1) ≠ (salt2, iv2))
    (hblob : encryptE C (some mk) salt1 iv1 text = .ok blob) :
    decryptE C (some mk) blob = .ok text ∧
    encryptE C (some mk) salt1 iv1 text ≠ encryptE C (some mk) salt2 iv2 text := by
  have hbytes1 := blob_bytes_lt C (C.kdf mk salt1) iv1 text salt1 h1b h1ib
    (C.tagOf (C.kdf mk salt1) iv1 (C.ctr (C.kdf mk salt1) iv1 (utf8Bytes text)))
    (C.tag_bytes_lt _ _ _)
  have hbytes2 := blob_bytes_lt C (C.kdf mk salt2) iv2 text salt2 h2b h2ib
    (C.tagOf (C.kdf mk salt2) iv2 (C.ctr (C.kdf mk salt2) iv2 (utf8Bytes text)))
    (C.tag_bytes_lt _ _ _)
  simp only [encryptE, deriveKeyE, Except.ok.injEq] at hblob
  constructor
  · rw [← hblob, decryptE_ok C mk salt1 iv1 _ _ h1l h1il (C.tag_length _ _ _)
      hbytes1]
    rw [if_pos rfl, C.ctr_involutive, utf8Decode_utf8Bytes]
  · intro heq
    simp only [encryptE, deriveKeyE, Except.ok.injEq] at heq
    have hB := base64Encode_injective _ _ hbytes1 hbytes2 heq
    have hs12 : salt1 = salt2 := by
      have h := congrArg (List.take 64) hB
      rwa [(blob_slices salt1 iv1 _ _ h1l h1il (C.tag_length _ _ _)).1,
        (blob_slices salt2 iv2 _ _ h2l h2il (C.tag_length _ _ _)).1] at h
    have hi12 : iv1 = iv2 := by
      have h := congrArg (fun l => (List.drop 64 l).take 16) hB
      simp only at h
      rwa [(blob_slices salt1 iv1 _ _ h1l h1il (C.tag_length _ _ _)).2.1,
        (blob_slices salt2 iv2 _ _ h2l h2il (C.tag_length _ _ _)).2.1] at h
    exact hne (by rw [hs12, hi12])

set_option maxRecDepth 10000 in
/-- C4, witness at the concrete cipher instance: the blob for `"ab"`
decrypts back to `"ab"`, and changing the salt draw changes the blob. -/
theorem claim_C4_witness :
    decryptE idAead (some "k0") c5Blob = .ok "ab" ∧
    encryptE idAead (some "k0") zeros64 zeros16 "ab" ≠
      encryptE idAead (some "k0") (List.replicate 64 1) zeros16 "ab" :=
  claim_C4 idAead "k0" zeros64 zeros16 (List.replicate 64 1) zeros16 "ab"
    c5Blob (by decide) (by decide) (by decide) (by decide) (by decide)
    (by decide) (by decide) (by decide) (by decide) rfl

set_option maxRecDepth 10000 in
/-- C5, counterexample: a single-character modification of an `encrypt`
blob that only changes the two trailing bits ignored by base64 decoding
of the padded final quantum.  `decrypt` does not fail on the modified
blob: it succeeds and returns the original plaintext. -/
theorem claim_C5_counterexample :
    (encryptE idAead (some "k0") zeros64 zeros16 "ab").toOption =
      some c5Blob ∧
    c5Blob.data.getD 130 ' ' = 'I' ∧
    c5Tampered.data.getD 130 ' ' = 'J' ∧
    c5Tampered.length = c5Blob.length ∧
    c5Tampered ≠ c5Blob ∧
    (decryptE idAead (some "k0") c5Tampered).toOption = some "ab" := by
  decide

/-- C5, amended: a modification of the blob that changes the embedded
16-byte authentication tag (such as flipping any byte in the tag region
of the decoded blob) always makes `decrypt` fail with the
authentication error; but a byte modification of the base64 text that
decodes to the same byte sequence is accepted and returns the original
plaintext.  (Rejection of modifications to the salt, IV or ciphertext
regions rests on collision properties of the external AES-GCM tag and
is not decidable from the repository's code.) -/
theorem claim_C5_amended (C : AeadCipher) (mk : String)
    (salt iv tag2 : List Nat) (text : String)
    (hs : salt.length = 64) (hi : iv.length = 16)
    (hsb : ∀ b ∈ salt, b < 256) (hib : ∀ b ∈ iv, b < 256)
    (htl : tag2.length = 16) (htb : ∀ b ∈ tag2, b < 256)
    (hne : tag2 ≠
      C.tagOf (C.kdf mk salt) iv (C.ctr (C.kdf mk salt) iv (utf8Bytes text))) :
    decryptE C (some mk)
        (base64Encode
          (salt ++ iv ++ tag2 ++ C.ctr (C.kdf mk salt) iv (utf8Bytes text))) =
      .error "Unsupported state or unable to authenticate data" := by
  rw [decryptE_ok C mk salt iv tag2 _ hs hi htl
    (blob_bytes_lt C _ iv text salt hsb hib tag2 htb)]
  rw [if_neg (fun h => hne h.symm)]

/-- C5, witness for the amended theorem: replacing the all-zero tag of
the `"ab"` blob with a tag whose first byte is flipped to 1 makes
`decrypt` fail. -/
theorem claim_C5_witness :
    decryptE idAead (some "k0")
        (base64Encode (zeros64 ++ zeros16 ++ (1 :: List.replicate 15 0) ++
          idAead.ctr (idAead.kdf "k0" zeros64) zeros16 (utf8Bytes "ab"))) =
      .error "Unsupported state or unable to authenticate data" :=
  claim_C5_amended idAead "k0" zeros64 zeros16 (1 :: List.replicate 15 0) "ab"
    (by decide) (by decide) (by decide) (by decide) (by decide) (by decide)
    (by decide)

/-- C6: session-token verification returns `null` — it never throws —
when the `jose` verification of the presented token fails (invalid
signature or structurally malformed token), and applies the expiry
check `payload.exp * 1000 <= Date.now()`: a token with
`exp = t0 + 3600` (seconds) verifies at `t0 + 3599` and yields `null`
at `t0 + 3601`.  The embedding is a total function into
`Option VerifiedUser`, mirroring the handler's `try/catch` that maps
every failure to `null`. -/
theorem claim_C6 (vErr vOk : String → Except String DecodedToken)
    (h token e : String) (payload : DecodedToken) (t0 nowMs : Nat)
    (hbearer : strStartsWith h "Bearer " = true)
    (htoken : (⟨(jsSplitChar ' ' h.data).getD 1 []⟩ : String) = token)
    (herr : vErr token = .error e)
    (hok : vOk token = .ok payload)
    (hexp : payload.exp = t0 + 3600) :
    verifyAccessToken vErr (some h) nowMs = none ∧
    verifyAccessToken vOk (some h) ((t0 + 3599) * 1000) =
      some { id := payload.user.id, email := payload.user.email,
             firstName := payload.user.firstName,
             lastName := payload.user.lastName,
             workspaces := ["default"] } ∧
    verifyAccessToken vOk (some h) ((t0 + 3601) * 1000) = none := by
  simp only [List.getD_eq_getElem?_getD] at htoken
  refine ⟨?_, ?_, ?_⟩
  · simp [verifyAccessToken, hbearer, htoken, herr]
  · simp [verifyAccessToken, hbearer, htoken, hok,
      show ¬(payload.exp ≤ t0 + 3599) by omega]
  · simp [verifyAccessToken, hbearer, htoken, hok,
      show payload.exp ≤ t0 + 3601 by omega]

/-- C6, witness at a concrete header, token and clock. -/
theorem claim_C6_witness :
    verifyAccessToken (fun _ => .error "signature verification failed")
        (some "Bearer tok") 0 = none ∧
    verifyAccessToken
        (fun _ => .ok ⟨⟨"u1", "u1@example.com", "Ada", "L"⟩, 3600⟩)
        (some "Bearer tok") ((0 + 3599) * 1000) =
      some { id := "u1", email := "u1@example.com", firstName := "Ada",
             lastName := "L", workspaces := ["default"] } ∧
    verifyAccessToken
        (fun _ => .ok ⟨⟨"u1", "u1@example.com", "Ada", "L"⟩, 3600⟩)
        (some "Bearer tok") ((0 + 3601) * 1000) = none :=
  claim_C6 (fun _ => .error "signature verification failed")
    (fun _ => .ok ⟨⟨"u1", "u1@example.com", "Ada", "L"⟩, 3600⟩)
    "Bearer tok" "tok" "signature verification failed"
    ⟨⟨"u1", "u1@example.com", "Ada", "L"⟩, 3600⟩ 0 0
    (by decide) (by decide) rfl rfl rfl

set_option maxRecDepth 10000 in
/-- C8, counterexample: the blob for `"sk-test-123"` is 144 base64
characters (`4 * ceil(107 / 3)`), not at least 180. -/
theorem claim_C8_counterexample :
    (encryptE idAead (some "k0") zeros64 zeros16 "sk-test-123").toOption =
      some c8Blob ∧
    c8Blob.length = 144 ∧
    ¬(180 ≤ c8Blob.length) := by decide

/-- C8, amended: `encrypt` outputs the base64 encoding of
`salt (64) || iv (16) || authTag (16) || ciphertext`, the ciphertext
has exactly the plaintext's UTF-8 byte length, and the base64 string
has `4 * ceil((96 + len) / 3)` characters — `144`, not `≥ 180`, for
the 11-byte plaintext `"sk-test-123"`. -/
theorem claim_C8_amended (C : AeadCipher) (mk : String) (salt iv : List Nat)
    (text : String) (hs : salt.length = 64) (hi : iv.length = 16) :
    encryptE C (some mk) salt iv text =
      .ok (base64Encode (salt ++ iv ++
        C.tagOf (C.kdf mk salt) iv (C.ctr (C.kdf mk salt) iv (utf8Bytes text)) ++
        C.ctr (C.kdf mk salt) iv (utf8Bytes text))) ∧
    (C.ctr (C.kdf mk salt) iv (utf8Bytes text)).length =
      (utf8Bytes text).length ∧
    (base64Encode (salt ++ iv ++
        C.tagOf (C.kdf mk salt) iv (C.ctr (C.kdf mk salt) iv (utf8Bytes text)) ++
        C.ctr (C.kdf mk salt) iv (utf8Bytes text))).length =
      4 * ((96 + (utf8Bytes text).length + 2) / 3) := by
  refine ⟨rfl, C.ctr_length _ _ _, ?_⟩
  rw [base64Encode_length]
  simp only [List.length_append, hs, hi, C.tag_length, C.ctr_length]

/-- C8, witness for the amended theorem at the concrete instance. -/
theorem claim_C8_witness :
    encryptE idAead (some "k0") zeros64 zeros16 "sk-test-123" =
      .ok (base64Encode (zeros64 ++ zeros16 ++
        idAead.tagOf (idAead.kdf "k0" zeros64) zeros16
          (idAead.ctr (idAead.kdf "k0" zeros64) zeros16
            (utf8Bytes "sk-test-123")) ++
        idAead.ctr (idAead.kdf "k0" zeros64) zeros16
          (utf8Bytes "sk-test-123"))) ∧
    (idAead.ctr (idAead.kdf "k0" zeros64) zeros16
        (utf8Bytes "sk-test-123")).length =
      (utf8Bytes "sk-test-123").length ∧
    (base64Encode (zeros64 ++ zeros16 ++
        idAead.tagOf (idAead.kdf "k0" zeros64) zeros16
          (idAead.ctr (idAead.kdf "k0" zeros64) zeros16
            (utf8Bytes "sk-test-123")) ++
        idAead.ctr (idAead.kdf "k0" zeros64) zeros16
          (utf8Bytes "sk-test-123"))).length =
      4 * ((96 + (utf8Bytes "sk-test-123").length + 2) / 3) :=
  claim_C8_amended idAead "k0" zeros64 zeros16 "sk-test-123"
    (by decide) (by decide)

/-- C9, counterexample: with `ENCRYPTION_KEY` unset the process model
does not fail at startup; instead the very call to `encrypt` (and to
`decrypt`) is where the missing secret surfaces, as the error thrown by
`deriveKey`. -/
theorem claim_C9_counterexample :
    encryptE idAead none zeros64 zeros16 "sk-test-123" =
      Except.error "ENCRYPTION_KEY environment variable is not set" ∧
    decryptE idAead none "any-blob" =
      Except.error "ENCRYPTION_KEY environment variable is not set" :=
  ⟨rfl, rfl⟩

/-- C9, amended: `deriveKey` reads `process.env.ENCRYPTION_KEY` on every
call; when it is unset, every `encrypt` and every `decrypt` call fails
with the per-call error `ENCRYPTION_KEY environment variable is not
set`, and when it is set, `encrypt` proceeds normally.  Nothing checks
the master secret at startup. -/
theorem claim_C9_amended (C : AeadCipher) (salt iv : List Nat)
    (text blob mk : String) :
    encryptE C none salt iv text =
      Except.error "ENCRYPTION_KEY environment variable is not set" ∧
    decryptE C none blob =
      Except.error "ENCRYPTION_KEY environment variable is not set" ∧
    encryptE C (some mk) salt iv text =
      .ok (base64Encode (salt ++ iv ++
        C.tagOf (C.kdf mk salt) iv (C.ctr (C.kdf mk salt) iv (utf8Bytes text)) ++
        C.ctr (C.kdf mk salt) iv (utf8Bytes text))) :=
  ⟨rfl, rfl, rfl⟩

/-- C10: on the success path of the `GET /api/auth` callback, the
redirect `Location` is
`ALLOWED_ORIGIN + "/?authorized=true&token=" + encodeURIComponent(token)`
— for a token of URI-unreserved characters, the plaintext provider
access token itself appears as the `token` query parameter — and the
same token is also set in an `Authorization: Bearer` response header. -/
theorem claim_C10 (allowedOrigin accessToken : String)
    (h : ∀ c ∈ accessToken.data, uriUnreserved c = true) :
    (buildAuthSuccessResponse allowedOrigin accessToken).location =
      allowedOrigin ++ "/?authorized=true&token=" ++ accessToken ∧
    ("Authorization", "Bearer " ++ accessToken) ∈
      (buildAuthSuccessResponse allowedOrigin accessToken).headers := by
  constructor
  · show allowedOrigin ++ "/?authorized=true&token=" ++
      encodeURIComponent accessToken = _
    rw [encodeURIComponent_unreserved _ h]
  · simp [buildAuthSuccessResponse]

/-- C10, witness at a concrete origin and token. -/
theorem claim_C10_witness :
    (buildAuthSuccessResponse "http://localhost:1337" "token123ABC").location =
      "http://localhost:1337" ++ "/?authorized=true&token=" ++ "token123ABC" ∧
    ("Authorization", "Bearer " ++ "token123ABC") ∈
      (buildAuthSuccessResponse "http://localhost:1337" "token123ABC").headers :=
  claim_C10 "http://localhost:1337" "token123ABC" (by decide)

end FlowSeo
